import Mathlib

/-!
Shallow embedding of the repository source file src/cldfbench/cldf.py
(classes CLDFSpec and CLDFWriter) and of the collaborator behaviour it
invokes (pycldf module registry, pathlib, shutil.copy, subprocess.run).

File paths are modelled as lists of components; the filesystem is a pair
of directory-path and file-path lists.  Python exceptions are modelled by
an explicit error type threaded through the definitions: constructors
return Except, while CLDFWriter.write is modelled state-passing (the
writer/filesystem state reached before a raise is part of the result),
because Python exceptions unwind without undoing side effects.
-/

/-- Filesystem path, as a list of components (pathlib.Path). -/
abbrev FPath := List String

/-- Last path component, as pathlib.Path.name. -/
def pathName (p : FPath) : String := (p.getLast?).getD ""

/-- Parent path, as pathlib.Path.parent: drop the last component. -/
def pathParent (p : FPath) : FPath := p.dropLast

/-- Rendering of a path as a string, as str(pathlib.Path(...)). -/
def pathStr (p : FPath) : String := String.intercalate "/" p

/-- An entry of the pycldf module registry returned by get_modules():
its id and (a name standing for) its dataset class cls. -/
structure SchemaModule where
  id : String
  cls : String
deriving Repr, DecidableEq

/-- Python exceptions that the embedded code can raise. -/
inductive PyErr
  | valueError (msg : String)
  | fileNotFoundError
  | calledProcessError
  | attributeError
deriving Repr, DecidableEq

/-- The error class the spec calls ConfigurationError: the ValueError
raised at CLDFSpec construction time. -/
def ConfigurationError (msg : String) : PyErr := PyErr.valueError msg

/-- Whether an error is a construction-time ConfigurationError. -/
def PyErr.isConfigurationError : PyErr → Bool
  | .valueError _ => true
  | _ => false

/-- Outcome of running the external command pip freeze via
subprocess.run with check=True. -/
inductive PipOutcome
  | success
  | exitNonzero
  | notFound
deriving Repr, DecidableEq

/-- Splitting a character list at whitespace characters, keeping the
(possibly empty) pieces; cur accumulates the current piece reversed. -/
def wsSplit : List Char → List Char → List String
  | [], cur => [String.mk cur.reverse]
  | c :: cs, cur =>
    if c.isWhitespace then String.mk cur.reverse :: wsSplit cs []
    else wsSplit cs (c :: cur)

/-- Whitespace splitting of a string as Python str.split() with no
argument: split on whitespace runs, dropping empty pieces. -/
def pySplitWs (s : String) : List String :=
  (wsSplit s.toList []).filter (fun t => t ≠ "")

/-- Environment supplied by the Python runtime and the collaborator
libraries: the pycldf module registry (get_modules()), whether
Dataset.from_metadata succeeds on a given path, the pycldf package
directory used by pkg_path, sys.version (with the CPython guarantee
that it is a non-blank version string), and the behaviour of the
external pip executable. -/
structure Env where
  registry : List SchemaModule
  fromMetadataOk : FPath → Bool
  pkgDir : FPath
  sysVersion : String
  sysVersionHasToken : pySplitWs sysVersion ≠ []
  pipOutcome : PipOutcome

/-- First whitespace-delimited token of sys.version, as
sys.version.split()[0]. -/
def pyVersionToken (env : Env) : String :=
  (pySplitWs env.sysVersion).head env.sysVersionHasToken

/-- MD_SUFFIX from pycldf.dataset. -/
def MD_SUFFIX : String := "-metadata.json"

/-- The module argument of CLDFSpec: either a plain identifier string or
a class-like object carrying a name attribute. -/
inductive ModuleArg
  | str (s : String)
  | clsNamed (nm : String)
deriving Repr, DecidableEq

/-- The attrs converter of the module field: getattr(cls, the name
attribute, cls) - a class yields its name, a plain string is kept. -/
def ModuleArg.converted : ModuleArg → String
  | .str s => s
  | .clsNamed nm => nm

/-- CLDFSpec after successful construction. -/
structure CLDFSpec where
  module : String
  default_metadata_path : FPath
  metadata_fname : String
  data_fnames : List (String × String)
deriving Repr, DecidableEq

/-- Resolution of metadata_fname in __attrs_post_init__: the guard is
Python truthiness (if not self.metadata_fname), so None and the empty
string both fall back to default_metadata_path.name. -/
def resolveFname (metadata_fname : Option String) (p : FPath) : String :=
  match metadata_fname with
  | none => pathName p
  | some f => if f = "" then pathName p else f

/-- Construction of a CLDFSpec: the module converter runs, then the
attrs in_ validator against the ids of get_modules(), then
__attrs_post_init__ (validate a given default_metadata_path through
Dataset.from_metadata, or resolve the packaged template path
pkg_path("modules", module + MD_SUFFIX); then fill metadata_fname). -/
def mkCLDFSpec (env : Env) (module : ModuleArg) (default_metadata_path : Option FPath)
    (metadata_fname : Option String) (data_fnames : List (String × String)) :
    Except PyErr CLDFSpec :=
  let m := module.converted
  if (env.registry.map SchemaModule.id).contains m then
    match default_metadata_path with
    | some p =>
      if env.fromMetadataOk p then
        Except.ok { module := m, default_metadata_path := p,
                    metadata_fname := resolveFname metadata_fname p,
                    data_fnames := data_fnames }
      else
        Except.error (ConfigurationError ("invalid default metadata: " ++ pathStr p))
    | none =>
      let p := env.pkgDir ++ ["modules", m ++ MD_SUFFIX]
      Except.ok { module := m, default_metadata_path := p,
                  metadata_fname := resolveFname metadata_fname p,
                  data_fnames := data_fnames }
  else
    Except.error (ConfigurationError ("module must be in the module registry: " ++ m))

/-- CLDFSpec() with every argument left at its default, as used by
CLDFWriter.__init__ when no cldf_spec is passed: module defaults to the
string Generic. -/
def mkCLDFSpecDefault (env : Env) : Except PyErr CLDFSpec :=
  mkCLDFSpec env (ModuleArg.str "Generic") none none []

/-- The cls property of CLDFSpec: first registry entry whose id equals
the module, yielding its class. -/
def CLDFSpec.clsOf (env : Env) (s : CLDFSpec) : Option String :=
  (env.registry.find? (fun mo => mo.id == s.module)).map SchemaModule.cls

/-- A value found among vars(args).values() of the cli argument
namespace: either a Catalog instance (carrying the record its json_ld
method returns) or any other value. -/
inductive ArgValue
  | catalog (jsonLd : String)
  | other (v : String)
deriving Repr, DecidableEq

/-- The provenance record of a Catalog instance, none for other values
(the isinstance(cat, Catalog) test). -/
def catalogRecord : ArgValue → Option String
  | .catalog j => some j
  | .other _ => none

/-- The cldfbench.Dataset object optionally passed to the writer; only
its repo attribute (carrying the record repo.json_ld() returns, when the
repository is present) matters to the embedded code. -/
structure DatasetObj where
  repo : Option String
deriving Repr, DecidableEq

/-- One entry of the wasGeneratedBy provenance list: an OrderedDict with
dc:title and either dc:description or dc:relation. -/
inductive ProvEntry
  | description (title text : String)
  | relation (title target : String)
deriving Repr, DecidableEq

/-- Table rows are opaque payloads. -/
abbrev Row := String

/-- Facade state of the pycldf dataset handle self.cldf: the class it
was instantiated from, its metadata path, the properties and provenance
the embedded code sets, per-component url overrides, and the rows passed
to its write method. -/
structure CLDFHandle where
  moduleCls : String
  metadataPath : FPath
  rdfType : Option String
  wasDerivedFrom : Option (List String)
  wasGeneratedBy : Option (List ProvEntry)
  compUrls : List (String × String)
  written : Option (List (String × List Row))
deriving Repr, DecidableEq

/-- CLDFWriter state after successful construction. -/
structure CLDFWriter where
  cldf_spec : CLDFSpec
  objects : List (String × List Row)
  args : Option (List ArgValue)
  dataset : Option DatasetObj
  dir : FPath
  cldf : CLDFHandle
deriving Repr, DecidableEq

/-- Filesystem state: existing directories and existing files. -/
structure FS where
  dirs : List FPath
  files : List FPath
deriving Repr, DecidableEq

/-- Directory existence test. -/
def FS.hasDir (fs : FS) (p : FPath) : Bool := fs.dirs.contains p

/-- Create or truncate a file, as open(path, wb): the path is a file
afterwards. -/
def FS.touch (fs : FS) (p : FPath) : FS :=
  if fs.files.contains p then fs else { fs with files := p :: fs.files }

/-- Path.mkdir() without parents: succeeds only when the parent
directory exists, else FileNotFoundError. -/
def mkdirOne (fs : FS) (p : FPath) : Except PyErr FS :=
  if fs.hasDir (pathParent p) then Except.ok { fs with dirs := p :: fs.dirs }
  else Except.error PyErr.fileNotFoundError

/-- The directory-ensuring step of CLDFWriter.__init__: if not
outdir.exists(): outdir.mkdir(). -/
def ensureOutdir (fs : FS) (p : FPath) : Except PyErr FS :=
  if fs.hasDir p then Except.ok fs else mkdirOne fs p

/-- shutil.copy(src, dst): requires the source file to exist, creates
the destination file. -/
def shutilCopy (fs : FS) (src dst : FPath) : Except PyErr FS :=
  if fs.files.contains src then Except.ok (fs.touch dst)
  else Except.error PyErr.fileNotFoundError

/-- CLDFWriter.__init__: default the spec, start with empty row buffers,
ensure the output directory (one level), copy the default metadata to
outdir/metadata_fname, and open the dataset handle through the from_metadata
entry point of the class resolved by the cls property of the spec. -/
def CLDFWriter.construct (env : Env) (outdir : FPath) (cldf_spec : Option CLDFSpec)
    (args : Option (List ArgValue)) (dataset : Option DatasetObj) (fs : FS) :
    Except PyErr (CLDFWriter × FS) :=
  match (match cldf_spec with
         | some s => Except.ok s
         | none => mkCLDFSpecDefault env) with
  | Except.error e => Except.error e
  | Except.ok spec =>
    match ensureOutdir fs outdir with
    | Except.error e => Except.error e
    | Except.ok fs1 =>
      match shutilCopy fs1 spec.default_metadata_path (outdir ++ [spec.metadata_fname]) with
      | Except.error e => Except.error e
      | Except.ok fs2 =>
        match CLDFSpec.clsOf env spec with
        | none => Except.error PyErr.attributeError
        | some c =>
          Except.ok ({ cldf_spec := spec, objects := [], args := args, dataset := dataset,
                       dir := outdir,
                       cldf := { moduleCls := c,
                                 metadataPath := outdir ++ [spec.metadata_fname],
                                 rdfType := none, wasDerivedFrom := none,
                                 wasGeneratedBy := none,
                                 compUrls := [], written := none } }, fs2)

/-- The srcs accumulation in CLDFWriter.write: start empty, append the
repository record when self.dataset and self.dataset.repo are set, then
append the record of every Catalog instance among vars(self.args).values(). -/
def collectSrcs (dataset : Option DatasetObj) (args : Option (List ArgValue)) : List String :=
  let srcs : List String :=
    match dataset with
    | some d =>
      match d.repo with
      | some r => [r]
      | none => []
    | none => []
  match args with
  | some vs =>
    vs.foldl (fun acc v =>
      match v with
      | ArgValue.catalog j => acc ++ [j]
      | ArgValue.other _ => acc) srcs
  | none => srcs

/-- subprocess.run(["pip", "freeze"], ..., check=True): normal return on
success, CalledProcessError on a nonzero exit status, FileNotFoundError
when the executable is absent. -/
def subprocessRunPip (outcome : PipOutcome) : Except PyErr Unit :=
  match outcome with
  | .success => Except.ok ()
  | .exitNonzero => Except.error PyErr.calledProcessError
  | .notFound => Except.error PyErr.fileNotFoundError

/-- Result of running CLDFWriter.write (or of exiting the writer scope):
the state reached and the exception, if one, that propagates. -/
structure WriteResult where
  writer : CLDFWriter
  fs : FS
  exc : Option PyErr
deriving Repr, DecidableEq

/-- Setting a component url override, self.cldf[comp].url = Link(fname). -/
def setUrlOverride (urls : List (String × String)) (comp fname : String) :
    List (String × String) :=
  if urls.any (fun pr => pr.1 == comp) then
    urls.map (fun pr => if pr.1 == comp then (comp, fname) else pr)
  else urls ++ [(comp, fname)]

/-- Tail of CLDFWriter.write past the try block: record wasGeneratedBy,
apply the data_fnames url overrides, and call the write method of the
handle with the accumulated rows. -/
def finishWrite (w : CLDFWriter) (fs : FS) (reqs : List ProvEntry)
    (kw : List (String × List Row)) : WriteResult :=
  let h := { w.cldf with wasGeneratedBy := some reqs }
  let urls := w.cldf_spec.data_fnames.foldl
    (fun u (pr : String × String) => setUrlOverride u pr.1 pr.2) h.compUrls
  let h := { h with compUrls := urls }
  let h := { h with written := some kw }
  { writer := { w with cldf := h }, fs := fs, exc := none }

/-- CLDFWriter.write: set rdf:type, record wasDerivedFrom when sources
were collected, build the python entry of the wasGeneratedBy list, open
outdir/requirements.txt for writing, run pip freeze with only
CalledProcessError caught (pass), and finish.  A FileNotFoundError from
the absent executable escapes the except clause and propagates, leaving
the effects already performed in place. -/
def CLDFWriter.write (env : Env) (w : CLDFWriter) (fs : FS)
    (kw : List (String × List Row)) : WriteResult :=
  let h := { w.cldf with rdfType := some "http://www.w3.org/ns/dcat#Distribution" }
  let srcs := collectSrcs w.dataset w.args
  let h := if srcs.isEmpty then h else { h with wasDerivedFrom := some srcs }
  let w := { w with cldf := h }
  let reqs := [ProvEntry.description "python" (pyVersionToken env)]
  let fs := fs.touch (w.dir ++ ["requirements.txt"])
  match subprocessRunPip env.pipOutcome with
  | Except.ok _ =>
    finishWrite w fs (reqs ++ [ProvEntry.relation "python-packages" "requirements.txt"]) kw
  | Except.error PyErr.calledProcessError =>
    finishWrite w fs reqs kw
  | Except.error e =>
    { writer := w, fs := fs, exc := some e }

/-- CLDFWriter.__exit__: unconditionally self.write(**self.objects), and
return None, so an exception from the scope body is never suppressed; an
exception raised by write itself propagates instead per Python context
manager semantics. -/
def CLDFWriter.exitScope (env : Env) (w : CLDFWriter) (fs : FS)
    (excInfo : Option PyErr) : WriteResult :=
  let r := CLDFWriter.write env w fs w.objects
  match r.exc with
  | some e => { r with exc := some e }
  | none => { r with exc := excInfo }

/-- The Generic entry of the module registry, used in concrete runs. -/
def genericModule : SchemaModule := { id := "Generic", cls := "GenericDataset" }

/-- A concrete environment with a one-entry registry, valid metadata
everywhere, and the given pip behaviour. -/
def mkTestEnv (outc : PipOutcome) : Env :=
  { registry := [genericModule], fromMetadataOk := fun _ => true,
    pkgDir := ["pycldf"], sysVersion := "3.8.1 (default)",
    sysVersionHasToken := by decide, pipOutcome := outc }

/-- Environment in which pip freeze succeeds. -/
def envOk : Env := mkTestEnv PipOutcome.success

/-- Environment in which pip freeze exits with a nonzero status. -/
def envNZ : Env := mkTestEnv PipOutcome.exitNonzero

/-- Environment in which the pip executable is absent. -/
def envNF : Env := mkTestEnv PipOutcome.notFound

/-- A concrete CLDFSpec for the Generic module. -/
def spec0 : CLDFSpec :=
  { module := "Generic",
    default_metadata_path := ["pycldf", "modules", "Generic-metadata.json"],
    metadata_fname := "Generic-metadata.json", data_fnames := [] }

/-- A concrete fresh handle as construction produces it. -/
def handle0 : CLDFHandle :=
  { moduleCls := "GenericDataset", metadataPath := ["out", "Generic-metadata.json"],
    rdfType := none, wasDerivedFrom := none, wasGeneratedBy := none,
    compUrls := [], written := none }

/-- A concrete freshly constructed writer. -/
def w0 : CLDFWriter :=
  { cldf_spec := spec0, objects := [], args := none, dataset := none,
    dir := ["out"], cldf := handle0 }

/-- A concrete filesystem: root and output directories exist, the
packaged Generic metadata template exists. -/
def fs0 : FS :=
  { dirs := [[], ["out"]], files := [["pycldf", "modules", "Generic-metadata.json"]] }

/-- Environment in which loading any path as dataset metadata fails. -/
def envBadMeta : Env :=
  { registry := [genericModule], fromMetadataOk := fun _ => false,
    pkgDir := ["pycldf"], sysVersion := "3.8.1 (default)",
    sysVersionHasToken := by decide, pipOutcome := PipOutcome.success }

/-- The repository part of the collected sources: the record of the
repository of the dataset, when both are present. -/
def repoRecords : Option DatasetObj → List String
  | some d =>
    match d.repo with
    | some r => [r]
    | none => []
  | none => []

/-- A concrete writer with one Catalog value and one non-Catalog value
among the cli arguments, and a dataset with a repository record. -/
def wCat : CLDFWriter :=
  { cldf_spec := spec0, objects := [],
    args := some [ArgValue.catalog "glottolog-record", ArgValue.other "outdir"],
    dataset := some { repo := some "repo-record" },
    dir := ["out"], cldf := handle0 }

/-- A filesystem in which only the root directory exists, together with
the packaged Generic template. -/
def fs1 : FS := { dirs := [[]], files := [["pycldf", "modules", "Generic-metadata.json"]] }

/-- The filesystem fs1 after a successful construction into the missing
directory out: the directory and the copied metadata file were created. -/
def fsOut : FS :=
  { dirs := [["out"], []],
    files := [["out", "Generic-metadata.json"], ["pycldf", "modules", "Generic-metadata.json"]] }

/-- Touching a file leaves the directory set unchanged. -/
theorem FS.touch_dirs (fs : FS) (p : FPath) : (fs.touch p).dirs = fs.dirs := by
  unfold FS.touch
  split <;> rfl

/-- After touching a file, the file exists. -/
theorem FS.touch_mem_files (fs : FS) (p : FPath) :
    (fs.touch p).files.contains p = true := by
  unfold FS.touch
  split
  · assumption
  · simp [List.contains_cons]

/-- C2: constructing a CLDFSpec whose normalized module identifier is not
among the ids of the module registry fails with the construction-time
ConfigurationError, for every such unknown identifier. -/
theorem C2_unknown_module_configuration_error (env : Env) (m : ModuleArg)
    (dmp : Option FPath) (mf : Option String) (df : List (String × String))
    (h : (env.registry.map SchemaModule.id).contains m.converted = false) :
    mkCLDFSpec env m dmp mf df
      = Except.error
          (ConfigurationError ("module must be in the module registry: " ++ m.converted)) := by
  unfold mkCLDFSpec
  dsimp only
  split
  · rename_i hcond
    rw [h] at hcond
    exact absurd hcond (by decide)
  · rfl

/-- Concrete run of the C2 theorem: the identifier Nope is unknown to the
one-entry registry and construction fails with ConfigurationError. -/
theorem C2_witness :
    ((envOk.registry.map SchemaModule.id).contains (ModuleArg.str "Nope").converted = false)
    ∧ mkCLDFSpec envOk (ModuleArg.str "Nope") none none []
      = Except.error
          (ConfigurationError ("module must be in the module registry: " ++ "Nope")) :=
  ⟨by decide,
   C2_unknown_module_configuration_error envOk (ModuleArg.str "Nope") none none [] (by decide)⟩

/-- C3: when a default metadata path is given and the collaborator fails to
load it as dataset metadata, construction re-raises the failure as the
ConfigurationError with message invalid default metadata followed by the
path. -/
theorem C3_invalid_default_metadata (env : Env) (m : ModuleArg) (p : FPath)
    (mf : Option String) (df : List (String × String))
    (h1 : (env.registry.map SchemaModule.id).contains m.converted = true)
    (h2 : env.fromMetadataOk p = false) :
    mkCLDFSpec env m (some p) mf df
      = Except.error (ConfigurationError ("invalid default metadata: " ++ pathStr p)) := by
  unfold mkCLDFSpec
  dsimp only
  split
  · split
    · rename_i hok
      rw [h2] at hok
      exact absurd hok (by decide)
    · rfl
  · rename_i hcond
    exact absurd h1 hcond

/-- Concrete run of the C3 theorem: with a collaborator that rejects every
metadata path, construction with an explicit path fails with the message
naming that path. -/
theorem C3_witness :
    ((envBadMeta.registry.map SchemaModule.id).contains (ModuleArg.str "Generic").converted
        = true)
    ∧ (envBadMeta.fromMetadataOk ["bad", "md.json"] = false)
    ∧ mkCLDFSpec envBadMeta (ModuleArg.str "Generic") (some ["bad", "md.json"]) none []
      = Except.error
          (ConfigurationError ("invalid default metadata: " ++ pathStr ["bad", "md.json"])) :=
  ⟨by decide, rfl,
   C3_invalid_default_metadata envBadMeta (ModuleArg.str "Generic") ["bad", "md.json"]
     none [] (by decide) rfl⟩

/-- C4: exiting the writer scope invokes write on all rows accumulated in
objects (the resulting writer and filesystem are exactly those produced by
write), an exception raised inside the scope is propagated unchanged
whenever write completes, and the exit never suppresses the exception. -/
theorem C4_exit_writes_and_propagates (env : Env) (w : CLDFWriter) (fs : FS) (e : PyErr) :
    ((CLDFWriter.exitScope env w fs (some e)).writer
        = (CLDFWriter.write env w fs w.objects).writer
      ∧ (CLDFWriter.exitScope env w fs (some e)).fs
        = (CLDFWriter.write env w fs w.objects).fs)
    ∧ ((CLDFWriter.write env w fs w.objects).exc = none →
        (CLDFWriter.exitScope env w fs (some e)).exc = some e)
    ∧ (CLDFWriter.exitScope env w fs (some e)).exc ≠ none := by
  unfold CLDFWriter.exitScope
  cases h : (CLDFWriter.write env w fs w.objects).exc with
  | none => simp [h]
  | some e2 => simp [h]

/-- Concrete run of the C4 theorem: after a normally completing write, the
exception raised in the scope body is the one that propagates. -/
theorem C4_witness :
    ((CLDFWriter.write envOk w0 fs0 w0.objects).exc = none)
    ∧ (CLDFWriter.exitScope envOk w0 fs0 (some PyErr.attributeError)).exc
        = some PyErr.attributeError :=
  ⟨rfl, (C4_exit_writes_and_propagates envOk w0 fs0 PyErr.attributeError).2.1 rfl⟩

/-- The source-collecting fold appends exactly the records of the Catalog
instances, in order, after the initial list. -/
theorem foldl_append_catalogRecord (vs : List ArgValue) (start : List String) :
    vs.foldl (fun acc v =>
      match v with
      | ArgValue.catalog j => acc ++ [j]
      | ArgValue.other _ => acc) start
      = start ++ vs.filterMap catalogRecord := by
  induction vs generalizing start with
  | nil => simp
  | cons v vs ih =>
    cases v with
    | catalog j => simp [List.foldl_cons, ih, catalogRecord, List.filterMap_cons]
    | other x => simp [List.foldl_cons, ih, catalogRecord, List.filterMap_cons]

/-- The wasDerivedFrom recorded by write: set to the collected sources
exactly when that list is non-empty, untouched otherwise, on every pip
outcome. -/
theorem write_wasDerivedFrom (env : Env) (w : CLDFWriter) (fs : FS)
    (kw : List (String × List Row)) :
    (CLDFWriter.write env w fs kw).writer.cldf.wasDerivedFrom
      = if (collectSrcs w.dataset w.args).isEmpty then w.cldf.wasDerivedFrom
        else some (collectSrcs w.dataset w.args) := by
  unfold CLDFWriter.write
  cases hp : env.pipOutcome <;>
    cases hs : (collectSrcs w.dataset w.args).isEmpty <;>
      simp [subprocessRunPip, hp, hs, finishWrite]

/-- C5: the sources collected by write are the repository record of the
dataset, if any, followed by the records of exactly the Catalog values
among the cli arguments, in order; and write records them on the handle
as wasDerivedFrom precisely when the list is non-empty. -/
theorem C5_wasDerivedFrom_sources (env : Env) (w : CLDFWriter) (fs : FS)
    (kw : List (String × List Row)) (vs : List ArgValue)
    (hargs : w.args = some vs) (hfresh : w.cldf.wasDerivedFrom = none) :
    collectSrcs w.dataset w.args = repoRecords w.dataset ++ vs.filterMap catalogRecord
    ∧ ((CLDFWriter.write env w fs kw).writer.cldf.wasDerivedFrom
        = some (collectSrcs w.dataset w.args)
       ↔ collectSrcs w.dataset w.args ≠ []) := by
  constructor
  · rw [hargs]
    unfold collectSrcs
    dsimp only
    rw [foldl_append_catalogRecord]
    unfold repoRecords
    cases w.dataset with
    | none => rfl
    | some d =>
      cases d.repo with
      | none => rfl
      | some r => rfl
  · rw [write_wasDerivedFrom, hfresh]
    cases hs : (collectSrcs w.dataset w.args).isEmpty with
    | true =>
      have : collectSrcs w.dataset w.args = [] := by
        simpa using hs
      simp [this]
    | false =>
      have : collectSrcs w.dataset w.args ≠ [] := by
        simpa using hs
      simp [this]

/-- Concrete run of the C5 theorem on wCat: only the Catalog record joins
the repository record, and the non-empty list is recorded. -/
theorem C5_witness :
    collectSrcs wCat.dataset wCat.args
        = repoRecords wCat.dataset
          ++ [ArgValue.catalog "glottolog-record", ArgValue.other "outdir"].filterMap
               catalogRecord
    ∧ ((CLDFWriter.write envOk wCat fs0 []).writer.cldf.wasDerivedFrom
        = some (collectSrcs wCat.dataset wCat.args)
       ↔ collectSrcs wCat.dataset wCat.args ≠ []) :=
  C5_wasDerivedFrom_sources envOk wCat fs0 []
    [ArgValue.catalog "glottolog-record", ArgValue.other "outdir"] rfl rfl

/-- C1 counterexample: in an environment where the pip executable is
unavailable, write on a concrete writer does not complete successfully -
the FileNotFoundError escapes the except clause, which names only
CalledProcessError, and propagates. -/
theorem C1_counterexample :
    (CLDFWriter.write envNF w0 fs0 []).exc = some PyErr.fileNotFoundError := rfl

/-- C1 as amended: when pip freeze runs but exits with a nonzero status,
the CalledProcessError is caught and silently ignored, no python-packages
entry is added to wasGeneratedBy, and write completes successfully; when
the pip executable is unavailable, the FileNotFoundError is not caught and
write propagates it. -/
theorem C1_pip_failure_handling (env : Env) (w : CLDFWriter) (fs : FS)
    (kw : List (String × List Row)) :
    (env.pipOutcome = PipOutcome.exitNonzero →
      (CLDFWriter.write env w fs kw).exc = none
      ∧ (CLDFWriter.write env w fs kw).writer.cldf.wasGeneratedBy
          = some [ProvEntry.description "python" (pyVersionToken env)])
    ∧ (env.pipOutcome = PipOutcome.notFound →
      (CLDFWriter.write env w fs kw).exc = some PyErr.fileNotFoundError
      ∧ (CLDFWriter.write env w fs kw).writer.cldf.wasGeneratedBy
          = w.cldf.wasGeneratedBy) := by
  constructor
  · intro hp
    unfold CLDFWriter.write
    simp [subprocessRunPip, hp, finishWrite]
  · intro hp
    unfold CLDFWriter.write
    cases hs : (collectSrcs w.dataset w.args).isEmpty <;>
      simp [subprocessRunPip, hp, hs]

/-- Concrete run of the C1 theorem: with pip exiting nonzero, write
completes and only the python entry is recorded. -/
theorem C1_witness :
    (envNZ.pipOutcome = PipOutcome.exitNonzero)
    ∧ (CLDFWriter.write envNZ w0 fs0 []).exc = none
    ∧ (CLDFWriter.write envNZ w0 fs0 []).writer.cldf.wasGeneratedBy
        = some [ProvEntry.description "python" (pyVersionToken envNZ)] :=
  ⟨rfl, ((C1_pip_failure_handling envNZ w0 fs0 []).1 rfl).1,
   ((C1_pip_failure_handling envNZ w0 fs0 []).1 rfl).2⟩

/-- C6 counterexample: in an environment where the pip executable is
unavailable, a concrete write call raises before reaching the
add_provenance call, so no wasGeneratedBy list at all is recorded on the
handle - the python entry is not always present. -/
theorem C6_counterexample :
    (CLDFWriter.write envNF w0 fs0 []).writer.cldf.wasGeneratedBy = none
    ∧ (CLDFWriter.write envNF w0 fs0 []).exc ≠ none := ⟨rfl, by decide⟩

/-- C6 as amended: on every invocation of write during which the pip
executable is found (the package listing succeeds or exits nonzero), the
recorded wasGeneratedBy list starts with the entry of dc:title python and
dc:description the first whitespace-delimited token of sys.version; when
the executable is unavailable, write raises first and records no
wasGeneratedBy. -/
theorem C6_wasGeneratedBy_python_entry (env : Env) (w : CLDFWriter) (fs : FS)
    (kw : List (String × List Row)) (h : env.pipOutcome ≠ PipOutcome.notFound) :
    ∃ rest, (CLDFWriter.write env w fs kw).writer.cldf.wasGeneratedBy
      = some (ProvEntry.description "python" (pyVersionToken env) :: rest) := by
  cases hp : env.pipOutcome with
  | success =>
    refine ⟨[ProvEntry.relation "python-packages" "requirements.txt"], ?_⟩
    unfold CLDFWriter.write
    simp [subprocessRunPip, hp, finishWrite]
  | exitNonzero =>
    refine ⟨[], ?_⟩
    unfold CLDFWriter.write
    simp [subprocessRunPip, hp, finishWrite]
  | notFound => exact absurd hp h

/-- Concrete run of the C6 theorem: with pip succeeding, the recorded list
starts with the python version entry. -/
theorem C6_witness :
    (envOk.pipOutcome ≠ PipOutcome.notFound)
    ∧ ∃ rest, (CLDFWriter.write envOk w0 fs0 []).writer.cldf.wasGeneratedBy
        = some (ProvEntry.description "python" (pyVersionToken envOk) :: rest) :=
  ⟨by decide, C6_wasGeneratedBy_python_entry envOk w0 fs0 [] (by decide)⟩

/-- C7: writer construction leaves an existing output directory unchanged,
creates exactly the one missing level when only the directory itself is
absent, and fails with FileNotFoundError when the parent is missing too,
that is when more than one level would have to be created. -/
theorem C7_outdir_creation (env : Env) (outdir : FPath) (spec : CLDFSpec)
    (args : Option (List ArgValue)) (ds : Option DatasetObj) (fs : FS) :
    (fs.hasDir outdir = true →
      ∀ w fs2, CLDFWriter.construct env outdir (some spec) args ds fs = Except.ok (w, fs2) →
        fs2.dirs = fs.dirs)
    ∧ (fs.hasDir outdir = false → fs.hasDir (pathParent outdir) = true →
      ∀ w fs2, CLDFWriter.construct env outdir (some spec) args ds fs = Except.ok (w, fs2) →
        fs2.dirs = outdir :: fs.dirs)
    ∧ (fs.hasDir outdir = false → fs.hasDir (pathParent outdir) = false →
      CLDFWriter.construct env outdir (some spec) args ds fs
        = Except.error PyErr.fileNotFoundError) := by
  refine ⟨?_, ?_, ?_⟩
  · intro hdir w fs2 heq
    unfold CLDFWriter.construct at heq
    dsimp only at heq
    rw [show ensureOutdir fs outdir = Except.ok fs from by simp [ensureOutdir, hdir]] at heq
    dsimp only at heq
    split at heq
    · exact Except.noConfusion heq
    · rename_i fsc hcopy
      split at heq
      · exact Except.noConfusion heq
      · simp only [Except.ok.injEq, Prod.mk.injEq] at heq
        obtain ⟨hw, hfs⟩ := heq
        subst hfs
        unfold shutilCopy at hcopy
        split at hcopy
        · simp only [Except.ok.injEq] at hcopy
          subst hcopy
          exact FS.touch_dirs fs _
        · exact Except.noConfusion hcopy
  · intro hdir hpar w fs2 heq
    unfold CLDFWriter.construct at heq
    dsimp only at heq
    rw [show ensureOutdir fs outdir = Except.ok { fs with dirs := outdir :: fs.dirs } from by
      simp [ensureOutdir, mkdirOne, hdir, hpar]] at heq
    dsimp only at heq
    split at heq
    · exact Except.noConfusion heq
    · rename_i fsc hcopy
      split at heq
      · exact Except.noConfusion heq
      · simp only [Except.ok.injEq, Prod.mk.injEq] at heq
        obtain ⟨hw, hfs⟩ := heq
        subst hfs
        unfold shutilCopy at hcopy
        split at hcopy
        · simp only [Except.ok.injEq] at hcopy
          subst hcopy
          rw [FS.touch_dirs]
        · exact Except.noConfusion hcopy
  · intro hdir hpar
    unfold CLDFWriter.construct
    dsimp only
    rw [show ensureOutdir fs outdir = Except.error PyErr.fileNotFoundError from by
      simp [ensureOutdir, mkdirOne, hdir, hpar]]

/-- Concrete run of the C7 theorem: with out absent and its parent (the
root) present, construction succeeds and creates exactly the directory
out. -/
theorem C7_witness :
    (fs1.hasDir ["out"] = false) ∧ (fs1.hasDir (pathParent ["out"]) = true)
    ∧ fsOut.dirs = ["out"] :: fs1.dirs :=
  ⟨rfl, rfl,
   (C7_outdir_creation envOk ["out"] spec0 none none fs1).2.1 rfl rfl w0 fsOut rfl⟩

/-- C8: whenever construction without a metadataFilename succeeds, the
resulting metadata_fname is the base filename of the resolved
default_metadata_path, whether that path was given or resolved to the
packaged template. -/
theorem C8_metadata_fname_default (env : Env) (m : ModuleArg) (dmp : Option FPath)
    (df : List (String × String)) (s : CLDFSpec)
    (h : mkCLDFSpec env m dmp none df = Except.ok s) :
    s.metadata_fname = pathName s.default_metadata_path := by
  unfold mkCLDFSpec at h
  dsimp only at h
  split at h
  · cases dmp with
    | some p =>
      dsimp only at h
      split at h
      · simp only [Except.ok.injEq] at h
        subst h
        rfl
      · exact Except.noConfusion h
    | none =>
      dsimp only at h
      simp only [Except.ok.injEq] at h
      subst h
      rfl
  · exact Except.noConfusion h

/-- Concrete run of the C8 theorem: the default construction resolves the
packaged Generic template and names the copy after it. -/
theorem C8_witness :
    (mkCLDFSpec envOk (ModuleArg.str "Generic") none none [] = Except.ok spec0)
    ∧ spec0.metadata_fname = pathName spec0.default_metadata_path :=
  ⟨rfl, C8_metadata_fname_default envOk (ModuleArg.str "Generic") none [] spec0 rfl⟩

/-- After touching a file, the file is a member of the file list. -/
theorem FS.mem_touch_files (fs : FS) (p : FPath) : p ∈ (fs.touch p).files := by
  unfold FS.touch
  split
  · rename_i h
    exact List.mem_of_elem_eq_true h
  · exact List.mem_cons_self p fs.files

/-- C9: every run of write creates (or truncates) the file
requirements.txt in the output directory before the external command runs,
so the file exists afterwards on every path, the pip failure paths
included. -/
theorem C9_requirements_file_created (env : Env) (w : CLDFWriter) (fs : FS)
    (kw : List (String × List Row)) :
    (CLDFWriter.write env w fs kw).fs.files.contains (w.dir ++ ["requirements.txt"])
      = true := by
  unfold CLDFWriter.write
  cases hp : env.pipOutcome <;>
    simp [subprocessRunPip, hp, finishWrite, FS.mem_touch_files]

/-- C10: a CLDFSpec constructed with no module argument has module
Generic, and a writer constructed without a spec carries a spec whose
module is Generic and a handle opened on the class the registry associates
with that module. -/
theorem C10_default_module_generic (env : Env) (outdir : FPath)
    (args : Option (List ArgValue)) (ds : Option DatasetObj) (fs : FS)
    (hGen : (env.registry.map SchemaModule.id).contains "Generic" = true) :
    (∃ s, mkCLDFSpecDefault env = Except.ok s ∧ s.module = "Generic")
    ∧ (∀ w fs2, CLDFWriter.construct env outdir none args ds fs = Except.ok (w, fs2) →
        w.cldf_spec.module = "Generic"
        ∧ CLDFSpec.clsOf env w.cldf_spec = some w.cldf.moduleCls) := by
  have hspec : mkCLDFSpecDefault env
      = Except.ok { module := "Generic",
                    default_metadata_path := env.pkgDir ++ ["modules", "Generic" ++ MD_SUFFIX],
                    metadata_fname :=
                      resolveFname none (env.pkgDir ++ ["modules", "Generic" ++ MD_SUFFIX]),
                    data_fnames := [] } := by
    unfold mkCLDFSpecDefault mkCLDFSpec
    dsimp only [ModuleArg.converted]
    split
    · rfl
    · rename_i hcond
      exact absurd hGen hcond
  constructor
  · exact ⟨_, hspec, rfl⟩
  · intro w fs2 heq
    unfold CLDFWriter.construct at heq
    dsimp only at heq
    rw [hspec] at heq
    dsimp only at heq
    split at heq
    · exact Except.noConfusion heq
    · rename_i fs1a hens
      split at heq
      · exact Except.noConfusion heq
      · rename_i fsc hcopy
        split at heq
        · exact Except.noConfusion heq
        · rename_i c hcls
          simp only [Except.ok.injEq, Prod.mk.injEq] at heq
          obtain ⟨hw, hfs⟩ := heq
          subst hw
          exact ⟨rfl, hcls⟩

/-- Concrete run of the C10 theorem: the default spec resolves to Generic
and a writer constructed without a spec in the concrete environment uses
the Generic class. -/
theorem C10_witness :
    ((envOk.registry.map SchemaModule.id).contains "Generic" = true)
    ∧ (∃ s, mkCLDFSpecDefault envOk = Except.ok s ∧ s.module = "Generic")
    ∧ (w0.cldf_spec.module = "Generic"
       ∧ CLDFSpec.clsOf envOk w0.cldf_spec = some w0.cldf.moduleCls) :=
  ⟨by decide, (C10_default_module_generic envOk ["out"] none none fs0 (by decide)).1,
   (C10_default_module_generic envOk ["out"] none none fs0 (by decide)).2 w0
     { fs0 with files := ["out", "Generic-metadata.json"] :: fs0.files } rfl⟩
